import Mathlib

/-!
Verification of the opensource-portal API router and middleware.

The development shallowly embeds the TypeScript sources:
  * the JavaScript object operations used by the create-repository route
    (property lookup, `Object.assign`, `delete`) over association lists,
  * the API-version gatekeeper middleware,
  * the organization-resolution middleware for `POST /:org/repos`,
  * the create-repository orchestrator handler with its telemetry events,
  * the portal-administration permission gate,
  * the `Collaborator` entity and its highest-permission derivation.
-/

set_option autoImplicit false

universe u

/-- A JavaScript object is modelled as an association list of string keys to
values; keys are unique in any object actually built by the code, and the
operations below implement the JS property semantics. -/
def Obj (α : Type u) : Type u := List (String × α)

instance {α : Type u} [DecidableEq α] : DecidableEq (Obj α) :=
  inferInstanceAs (DecidableEq (List (String × α)))

/-- Property read `o[k]`: the first entry with the given key, if any. -/
def objGet {α : Type u} : Obj α → String → Option α
  | [], _ => none
  | (k0, v0) :: rest, k => if k0 = k then some v0 else objGet rest k

/-- Property write `o[k] = v`: replace the first entry with the given key in
place, or append the key at the end when absent (JS insertion-order model). -/
def objSet {α : Type u} : Obj α → String → α → Obj α
  | [], k, v => [(k, v)]
  | (k0, v0) :: rest, k, v =>
    if k0 = k then (k0, v) :: rest else (k0, v0) :: objSet rest k v

/-- `Object.assign(target, src)`: copy each own enumerable property of `src`
onto `target`, in order, later writes overriding earlier values. -/
def objAssign {α : Type u} (target src : Obj α) : Obj α :=
  src.foldl (fun acc p => objSet acc p.1 p.2) target

/-- `delete o[k]`: remove every entry with the given key. -/
def objDelete {α : Type u} (o : Obj α) (k : String) : Obj α :=
  o.filter (fun p => !(p.1 = k : Bool))

/-- Keys of an object, in order. -/
def objKeys {α : Type u} (o : Obj α) : List String := o.map (fun p => p.1)

/-- An object with no repeated key, the invariant JS objects maintain. -/
def objNodupKeys {α : Type u} (o : Obj α) : Prop := (objKeys o).Nodup

instance {α : Type u} (o : Obj α) : Decidable (objNodupKeys o) := by
  unfold objNodupKeys; infer_instance

/-! ### JavaScript values and serialization -/

/-- A JavaScript value, as far as the router observes it: a serializable
value (abstracted to its string payload) or a structure on which
`JSON.stringify` throws (a circular structure). -/
inductive JsValue where
  | str : String → JsValue
  | circular : JsValue
deriving DecidableEq

/-- A JavaScript `Error`: the router only reads `error.message`. -/
structure JsError where
  message : String
deriving DecidableEq

/-- `JSON.stringify` on a single value: `none` models a thrown `TypeError`
(circular structure), `some` the produced JSON text. -/
def stringifyValue : JsValue → Option String
  | JsValue.str s => some ("\x22" ++ s ++ "\x22")
  | JsValue.circular => none

/-- `JSON.stringify` on an object: throws exactly when stringifying one of
its property values throws. -/
def stringifyObj (o : Obj JsValue) : Option String :=
  (o.mapM (fun p => (stringifyValue p.2).map (fun s => p.1 ++ ":" ++ s))).map
    (fun parts => String.intercalate "," parts)

/-- The `TypeError` thrown by `JSON.stringify` on a circular structure. -/
def circularStructureError : JsError :=
  { message := "Converting circular structure to JSON" }

/-- `JSON.stringify` applied to an `Error` object: the standard `Error`
properties are non-enumerable, so the result is the empty JSON object. -/
def stringifyError (_ : JsError) : String := "\x7b\x7d"

/-! ### The create-repository orchestrator, `router.post` on the path
`/:org/repos`, final async handler.

```js
const convergedObject = Object.assign({}, req.headers);
req.insights.trackEvent({ name: 'ApiRepoCreateRequest', properties: convergedObject });
Object.assign(convergedObject, req.body);
delete convergedObject.access_token;
delete convergedObject.authorization;
const logic = providers.customizedNewRepositoryLogic;
const customContext = logic?.createContext(req);
try {
  const repoCreateResponse = await CreateRepository(req, organization, logic,
    customContext, convergedObject, CreateRepositoryEntrypoint.Api);
  res.status(201);
  req.insights.trackEvent({ name: 'ApiRepoCreateRequestSuccess', properties: {
    request: JSON.stringify(convergedObject),
    response: JSON.stringify(repoCreateResponse) } });
  return res.json(repoCreateResponse);
} catch (error) {
  const data = { ...convergedObject };
  data.error = error.message;
  data.encodedError = JSON.stringify(error);
  req.insights.trackEvent({ name: 'ApiRepoCreateFailed', properties: data });
  return next(error);
}
```
-/

/-- A telemetry event handed to `req.insights.trackEvent`, with its property
map captured at the call. -/
structure Event where
  name : String
  properties : Obj JsValue
deriving DecidableEq

/-- The terminal action of the handler: an Express JSON response with a
status code, or `next(error)` handing the error to the error middleware. -/
inductive Outcome where
  | jsonResponse : Nat → JsValue → Outcome
  | nextError : JsError → Outcome
deriving DecidableEq

/-- Everything the handler does that is observable: the payload it passes to
`CreateRepository`, the telemetry events it emits in order, and its
terminal action. -/
structure HandlerTrace where
  downstreamPayload : Obj JsValue
  events : List Event
  outcome : Outcome
deriving DecidableEq

/-- `Object.assign({}, req.headers)`: the pre-merge header snapshot. -/
def headerSnapshot (headers : Obj JsValue) : Obj JsValue :=
  objAssign [] headers

/-- The merged and sanitized payload: headers merged with body (body keys
override), then `delete` of `access_token` and of `authorization`. -/
def sanitizedPayload (headers body : Obj JsValue) : Obj JsValue :=
  objDelete (objDelete (objAssign (headerSnapshot headers) body) "access_token") "authorization"

/-- The final `POST /:org/repos` handler. `createRepository` abstracts the
awaited downstream `CreateRepository` call as a function of the payload it
is given; `Except.error` models a thrown/rejected error. -/
def postOrgReposHandler (headers body : Obj JsValue)
    (createRepository : Obj JsValue → Except JsError JsValue) : HandlerTrace :=
  let snapshot := headerSnapshot headers
  let attemptEvent : Event := { name := "ApiRepoCreateRequest", properties := snapshot }
  let convergedObject := sanitizedPayload headers body
  match createRepository convergedObject with
  | Except.ok repoCreateResponse =>
    match stringifyObj convergedObject, stringifyValue repoCreateResponse with
    | some requestString, some responseString =>
      { downstreamPayload := convergedObject,
        events := [attemptEvent,
          { name := "ApiRepoCreateRequestSuccess",
            properties := [("request", JsValue.str requestString),
                           ("response", JsValue.str responseString)] }],
        outcome := Outcome.jsonResponse 201 repoCreateResponse }
    | _, _ =>
      let error := circularStructureError
      let data := objSet (objSet convergedObject "error" (JsValue.str error.message))
        "encodedError" (JsValue.str (stringifyError error))
      { downstreamPayload := convergedObject,
        events := [attemptEvent, { name := "ApiRepoCreateFailed", properties := data }],
        outcome := Outcome.nextError error }
  | Except.error error =>
    let data := objSet (objSet convergedObject "error" (JsValue.str error.message))
      "encodedError" (JsValue.str (stringifyError error))
    { downstreamPayload := convergedObject,
      events := [attemptEvent, { name := "ApiRepoCreateFailed", properties := data }],
      outcome := Outcome.nextError error }

/-! ### The API-version gatekeeper middleware.

```js
const hardcodedApiVersions = ['2019-10-01', '2019-02-01', '2017-09-01', '2017-03-08', '2016-12-01'];
function isClientRoute(req) {
  const path = req.path.toLowerCase();
  return path.startsWith('/client');
}
router.use((req, res, next) => {
  if (isClientRoute(req)) { return next(); }
  const apiVersion = (req.query['api-version'] || req.headers['api-version']);
  if (!apiVersion) {
    return next(jsonError('This endpoint requires that an API Version be provided.', 422));
  }
  if (apiVersion.toLowerCase() === '2016-09-22_Preview'.toLowerCase()) {
    return next(jsonError('This endpoint no longer supports the original preview version. ' +
      'Please update your client to use a newer version such as ' + hardcodedApiVersions[0], 422));
  }
  if (hardcodedApiVersions.indexOf(apiVersion.toLowerCase()) < 0) {
    return next(jsonError('This endpoint does not support the API version you provided at this time.', 422));
  }
  req.apiVersion = apiVersion;
  return next();
});
```
-/

/-- The allow-listed API versions; index 0 is the current recommended one. -/
def hardcodedApiVersions : List String :=
  ["2019-10-01", "2019-02-01", "2017-09-01", "2017-03-08", "2016-12-01"]

/-- `String.prototype.toLowerCase`, character-wise; ASCII lowering, which
covers every string the router compares. -/
def jsToLowerCase (s : String) : String := String.mk (s.data.map Char.toLower)

/-- Whether the first character list leads the second one. -/
def charsLeading : List Char → List Char → Bool
  | [], _ => true
  | _ :: _, [] => false
  | a :: as, b :: bs => (a = b : Bool) && charsLeading as bs

/-- `String.prototype.startsWith`. -/
def jsStartsWith (s pre : String) : Bool := charsLeading pre.data s.data

/-- `isClientRoute`: the lowercased request path starts with `/client`. -/
def isClientRoute (path : String) : Bool :=
  jsStartsWith (jsToLowerCase path) "/client"

/-- JS truthiness of an optional string: `undefined` and the empty string
are falsy, every other string is truthy. -/
def jsTruthyStr : Option String → Bool
  | none => false
  | some s => !(s = "" : Bool)

/-- The JS `a || b` operator on optional strings. -/
def jsOrString (a b : Option String) : Option String :=
  if jsTruthyStr a then a else b

/-- What the version middleware does with a request. `clientPassThrough`
models `next()` on an exempt client route, `versionError` models
`next(jsonError(message, status))`, and `versioned` models attaching the
validated version and calling `next()`. -/
inductive VersionOutcome where
  | clientPassThrough : VersionOutcome
  | versionError : String → Nat → VersionOutcome
  | versioned : String → VersionOutcome
deriving DecidableEq

def missingVersionMessage : String :=
  "This endpoint requires that an API Version be provided."

def retiredVersionMessage : String :=
  "This endpoint no longer supports the original preview version. Please update your client to use a newer version such as "
    ++ hardcodedApiVersions.headD ""

def unsupportedVersionMessage : String :=
  "This endpoint does not support the API version you provided at this time."

/-- The version gatekeeper middleware, translated line by line. -/
def versionGatekeeper (path : String) (queryApiVersion headerApiVersion : Option String) :
    VersionOutcome :=
  if isClientRoute path then VersionOutcome.clientPassThrough
  else
    match jsOrString queryApiVersion headerApiVersion with
    | none => VersionOutcome.versionError missingVersionMessage 422
    | some apiVersion =>
      if apiVersion = "" then VersionOutcome.versionError missingVersionMessage 422
      else if jsToLowerCase apiVersion = jsToLowerCase "2016-09-22_Preview" then
        VersionOutcome.versionError retiredVersionMessage 422
      else if !(hardcodedApiVersions.contains (jsToLowerCase apiVersion)) then
        VersionOutcome.versionError unsupportedVersionMessage 422
      else VersionOutcome.versioned apiVersion

/-- The spec-side description of what happens to a version value once one
has been supplied: the retired-sentinel check, then the allow-list check,
then acceptance. Used to state that the gatekeeper applies exactly this
decision to the value selected from query or header. -/
def versionCheckValue (v : String) : VersionOutcome :=
  if jsToLowerCase v = jsToLowerCase "2016-09-22_Preview" then
    VersionOutcome.versionError retiredVersionMessage 422
  else if !(hardcodedApiVersions.contains (jsToLowerCase v)) then
    VersionOutcome.versionError unsupportedVersionMessage 422
  else VersionOutcome.versioned v

/-! ### The organization-resolution middleware of `POST /:org/repos`.

```js
router.post('/:org/repos',
  requireAadApiAuthorizedScope(['repo/create', 'createRepo']),
  function (req, res, next) {
    const orgName = req.params.org;
    if (!req.apiKeyToken.organizationScopes) {
      return next(jsonError('There is a problem with the key configuration (no organization scopes)', 412));
    }
    if (!req.apiKeyToken.hasOrganizationScope(orgName)) {
      return next(jsonError('The key is not authorized for this organization', 401));
    }
    const providers = getProviders(req);
    const operations = providers.operations;
    let organization = null;
    try {
      organization = operations.getOrganization(orgName);
    } catch (ex) {
      return next(jsonError(ex, 400));
    }
    req.organization = organization;
    return next();
  });
```
-/

/-- The API key token attached to the request by authentication.
`organizationScopes = none` models a token whose organization-scope
configuration is absent (`undefined`/`null`, falsy in JS). -/
structure ApiKeyToken where
  organizationScopes : Option (List String)
deriving DecidableEq

/-- Modelled from the spec: `hasOrganizationScope` lives on the token class
outside the provided sources. Per the spec, the identity is authorized for
an organization exactly when its grants include the requested organization
name or the wildcard-all marker. -/
def ApiKeyToken.hasOrganizationScope (t : ApiKeyToken) (orgName : String) : Bool :=
  match t.organizationScopes with
  | none => false
  | some scopes => scopes.contains orgName || scopes.contains "*"

/-- What the organization middleware does with a request: `jsonErr` models
`next(jsonError(message, status))`, `wrappedErr` models
`next(jsonError(ex, status))` wrapping a thrown lookup error, and `ok`
models attaching the resolved organization and calling `next()`. -/
inductive OrgResolveOutcome where
  | jsonErr : String → Nat → OrgResolveOutcome
  | wrappedErr : JsError → Nat → OrgResolveOutcome
  | ok : String → OrgResolveOutcome
deriving DecidableEq

def misconfiguredKeyMessage : String :=
  "There is a problem with the key configuration (no organization scopes)"

def notAuthorizedMessage : String :=
  "The key is not authorized for this organization"

/-- The organization-resolution middleware. `getOrganization` abstracts the
directory lookup `operations.getOrganization`; `Except.error` models a
thrown exception. -/
def orgResolutionMiddleware (token : ApiKeyToken) (orgName : String)
    (getOrganization : String → Except JsError String) : OrgResolveOutcome :=
  match token.organizationScopes with
  | none => OrgResolveOutcome.jsonErr misconfiguredKeyMessage 412
  | some _ =>
    if !(token.hasOrganizationScope orgName) then
      OrgResolveOutcome.jsonErr notAuthorizedMessage 401
    else
      match getOrganization orgName with
      | Except.error ex => OrgResolveOutcome.wrappedErr ex 400
      | Except.ok organization => OrgResolveOutcome.ok organization

/-! ### The portal-administration permission gate,
`src/middleware/business/administration.ts`.

```js
function denyRoute(next) {
  next(wrapError(null,
    "These aren't the droids you are looking for. You do not have permission to be here.",
    true));
}
export function requirePortalAdministrationPermission(req, res, next) {
  req.individualContext.isPortalAdministrator()
    .then((isAdmin) => { return isAdmin === true ? next() : denyRoute(next); })
    .catch((err) => { denyRoute(next); });
}
```
-/

/-- A JavaScript value as observed by the permission gate: the promise may
resolve to any value, not only a boolean. -/
inductive JsVal where
  | vBool : Bool → JsVal
  | vNum : Int → JsVal
  | vStr : String → JsVal
  | vUndefined : JsVal
deriving DecidableEq

/-- The settled state of the `isPortalAdministrator()` promise. -/
inductive PromiseOutcome where
  | resolved : JsVal → PromiseOutcome
  | rejected : JsError → PromiseOutcome
deriving DecidableEq

/-- The gate's decision: `allowed` models `next()`, `denied` models
`next(wrapError(null, message, true))`. -/
inductive RouteDecision where
  | allowed : RouteDecision
  | denied : String → RouteDecision
deriving DecidableEq

/-- The single fixed denial message used by `denyRoute`. -/
def denyRouteMessage : String :=
  "These aren\x27t the droids you are looking for. You do not have permission to be here."

/-- `requirePortalAdministrationPermission`, as a function of the settled
state of the `isPortalAdministrator()` promise: `isAdmin === true` allows;
any other resolved value, or a rejection, runs `denyRoute`. -/
def requirePortalAdministrationPermission (check : PromiseOutcome) : RouteDecision :=
  match check with
  | PromiseOutcome.resolved isAdmin =>
    if isAdmin = JsVal.vBool true then RouteDecision.allowed
    else RouteDecision.denied denyRouteMessage
  | PromiseOutcome.rejected _ => RouteDecision.denied denyRouteMessage

/-! ### The `Collaborator` entity.

```js
export class Collaborator {
  constructor(entity) {
    if (entity) {
      common.assignKnownFieldsPrefixed(this, entity, 'member', memberPrimaryProperties);
    }
  }
  getHighestPermission() {
    if (!this._permissions) {
      return GitHubRepositoryPermission.None;
    }
    return projectCollaboratorPermissionsObjectToGitHubRepositoryPermission(this._permissions);
  }
}
```
-/

/-- The GitHub repository permission levels. -/
inductive GitHubRepositoryPermission where
  | admin : GitHubRepositoryPermission
  | maintain : GitHubRepositoryPermission
  | push : GitHubRepositoryPermission
  | triage : GitHubRepositoryPermission
  | pull : GitHubRepositoryPermission
  | none : GitHubRepositoryPermission
deriving DecidableEq

/-- The raw GitHub collaborator permissions object. -/
structure IGitHubCollaboratorPermissions where
  admin : Bool
  maintain : Bool
  push : Bool
  triage : Bool
  pull : Bool
deriving DecidableEq

/-- Modelled from the spec:
`projectCollaboratorPermissionsObjectToGitHubRepositoryPermission` lives in
`transitional.ts`, outside the provided sources. Per the spec it is a fixed
mapping from the raw permission-object shape to the single highest
permission level. -/
def projectCollaboratorPermissionsObjectToGitHubRepositoryPermission
    (p : IGitHubCollaboratorPermissions) : GitHubRepositoryPermission :=
  if p.admin then GitHubRepositoryPermission.admin
  else if p.maintain then GitHubRepositoryPermission.maintain
  else if p.push then GitHubRepositoryPermission.push
  else if p.triage then GitHubRepositoryPermission.triage
  else if p.pull then GitHubRepositoryPermission.pull
  else GitHubRepositoryPermission.none

/-- The raw source record a `Collaborator` is built from; every field may be
absent. `permissions` mirrors the `permissions` member primary property. -/
structure CollaboratorEntity where
  id : Option Int
  login : Option String
  permissions : Option IGitHubCollaboratorPermissions
  avatar_url : Option String
deriving DecidableEq

/-- The `Collaborator` instance fields; each starts `undefined` and is only
assigned by the constructor when an entity is supplied. -/
structure Collaborator where
  _id : Option Int := Option.none
  _login : Option String := Option.none
  _permissions : Option IGitHubCollaboratorPermissions := Option.none
  _avatar_url : Option String := Option.none
deriving DecidableEq

/-- The `Collaborator` constructor: a falsy (`null`/`undefined`) entity
leaves every field unassigned; otherwise `assignKnownFieldsPrefixed` copies
the member primary properties (`id`, `login`, `permissions`,
`avatar_url`). -/
def Collaborator.make (entity : Option CollaboratorEntity) : Collaborator :=
  match entity with
  | Option.none => {}
  | Option.some e =>
    { _id := e.id, _login := e.login, _permissions := e.permissions,
      _avatar_url := e.avatar_url }

/-- `Collaborator.getHighestPermission`. -/
def Collaborator.getHighestPermission (c : Collaborator) : GitHubRepositoryPermission :=
  match c._permissions with
  | Option.none => GitHubRepositoryPermission.none
  | Option.some p => projectCollaboratorPermissionsObjectToGitHubRepositoryPermission p

/-! ## Lemmas about the JavaScript object operations -/

theorem objKeys_cons {α : Type u} (k0 : String) (v0 : α) (rest : Obj α) :
    objKeys ((k0, v0) :: rest) = k0 :: objKeys rest := rfl

theorem objGet_objSet {α : Type u} (o : Obj α) (k : String) (v : α) (k' : String) :
    objGet (objSet o k v) k' = if k' = k then some v else objGet o k' := by
  induction o with
  | nil =>
    by_cases h : k' = k
    · subst h; simp [objSet, objGet]
    · simp [objSet, objGet, h, Ne.symm h]
  | cons p rest ih =>
    obtain ⟨k0, v0⟩ := p
    by_cases h0 : k0 = k
    · subst h0
      by_cases h : k' = k0
      · subst h; simp [objSet, objGet]
      · simp [objSet, objGet, h, Ne.symm h]
    · by_cases h0' : k0 = k'
      · have hne : ¬(k' = k) := by rw [← h0']; exact h0
        simp [objSet, objGet, h0, h0', hne]
      · simp [objSet, objGet, h0, h0', ih]

theorem objGet_objDelete {α : Type u} (o : Obj α) (k k' : String) :
    objGet (objDelete o k) k' = if k' = k then none else objGet o k' := by
  induction o with
  | nil => simp [objDelete, objGet]
  | cons p rest ih =>
    obtain ⟨k0, v0⟩ := p
    by_cases h0 : k0 = k
    · subst h0
      rw [show objDelete ((k0, v0) :: rest) k0 = objDelete rest k0 by
        simp [objDelete, List.filter_cons]]
      rw [ih]
      by_cases h : k' = k0
      · simp [h]
      · simp [h, objGet, Ne.symm h]
    · rw [show objDelete ((k0, v0) :: rest) k = (k0, v0) :: objDelete rest k by
        simp [objDelete, List.filter_cons, h0]]
      by_cases h0' : k0 = k'
      · have hne : ¬(k' = k) := by rw [← h0']; exact h0
        simp [objGet, h0', hne]
      · simp [objGet, h0', ih]

theorem objGet_eq_none_of_not_mem {α : Type u} (o : Obj α) (k : String)
    (h : k ∉ objKeys o) : objGet o k = none := by
  induction o with
  | nil => rfl
  | cons p rest ih =>
    obtain ⟨k0, v0⟩ := p
    rw [objKeys_cons] at h
    have h1 : ¬(k0 = k) := by
      intro hh; subst hh; exact h (List.mem_cons_self _ _)
    have h2 : k ∉ objKeys rest := fun hh => h (List.mem_cons_of_mem _ hh)
    simp [objGet, h1, ih h2]

theorem objGet_objAssign {α : Type u} (src : Obj α) (hsrc : objNodupKeys src) :
    ∀ (target : Obj α) (k : String),
      objGet (objAssign target src) k =
        match objGet src k with
        | some v => some v
        | none => objGet target k := by
  induction src with
  | nil => intro target k; simp [objAssign, objGet, List.foldl]
  | cons p rest ih =>
    intro target k
    obtain ⟨k0, v0⟩ := p
    have hsrc' : k0 ∉ objKeys rest ∧ (objKeys rest).Nodup := by
      have hh : (k0 :: objKeys rest).Nodup := by
        have := hsrc
        unfold objNodupKeys at this
        rwa [objKeys_cons] at this
      exact List.nodup_cons.mp hh
    have hnd : objNodupKeys rest := hsrc'.2
    have step : objAssign target ((k0, v0) :: rest)
        = objAssign (objSet target k0 v0) rest := rfl
    rw [step, ih hnd]
    by_cases h : k0 = k
    · subst h
      rw [objGet_eq_none_of_not_mem rest k0 hsrc'.1]
      simp [objGet, objGet_objSet]
    · have h' : ¬(k = k0) := fun hh => h hh.symm
      cases hrk : objGet rest k with
      | none => simp [hrk, objGet, h, objGet_objSet, h']
      | some v => simp [hrk, objGet, h]


/-! ## Lemmas about the orchestrator handler -/

theorem objGet_sanitizedPayload_access_token (headers body : Obj JsValue) :
    objGet (sanitizedPayload headers body) "access_token" = Option.none := by
  simp [sanitizedPayload, objGet_objDelete]

theorem objGet_sanitizedPayload_authorization (headers body : Obj JsValue) :
    objGet (sanitizedPayload headers body) "authorization" = Option.none := by
  simp [sanitizedPayload, objGet_objDelete]

theorem handler_downstreamPayload (headers body : Obj JsValue)
    (f : Obj JsValue → Except JsError JsValue) :
    (postOrgReposHandler headers body f).downstreamPayload = sanitizedPayload headers body := by
  cases hc : f (sanitizedPayload headers body) with
  | ok r =>
    cases hs : stringifyObj (sanitizedPayload headers body) with
    | none =>
      cases hv : stringifyValue r with
      | none => simp [postOrgReposHandler, hc, hs, hv]
      | some b => simp [postOrgReposHandler, hc, hs, hv]
    | some a =>
      cases hv : stringifyValue r with
      | none => simp [postOrgReposHandler, hc, hs, hv]
      | some b => simp [postOrgReposHandler, hc, hs, hv]
  | error e => simp [postOrgReposHandler, hc]

theorem handler_events_shape (headers body : Obj JsValue)
    (f : Obj JsValue → Except JsError JsValue) :
    ∀ ev ∈ (postOrgReposHandler headers body f).events,
      ev = { name := "ApiRepoCreateRequest", properties := headerSnapshot headers } ∨
      (∃ a b : String,
        ev.properties = [("request", JsValue.str a), ("response", JsValue.str b)]) ∨
      (∃ e : JsError,
        ev.properties
          = objSet (objSet (sanitizedPayload headers body) "error" (JsValue.str e.message))
              "encodedError" (JsValue.str (stringifyError e))) := by
  intro ev hev
  cases hc : f (sanitizedPayload headers body) with
  | ok r =>
    cases hs : stringifyObj (sanitizedPayload headers body) with
    | none =>
      cases hv : stringifyValue r with
      | none =>
        simp only [postOrgReposHandler, hc, hs, hv] at hev
        rcases List.mem_cons.mp hev with h1 | h2
        · exact Or.inl h1
        · rcases List.mem_cons.mp h2 with h3 | h4
          · exact Or.inr (Or.inr ⟨circularStructureError, by rw [h3]⟩)
          · simp at h4
      | some b =>
        simp only [postOrgReposHandler, hc, hs, hv] at hev
        rcases List.mem_cons.mp hev with h1 | h2
        · exact Or.inl h1
        · rcases List.mem_cons.mp h2 with h3 | h4
          · exact Or.inr (Or.inr ⟨circularStructureError, by rw [h3]⟩)
          · simp at h4
    | some a =>
      cases hv : stringifyValue r with
      | none =>
        simp only [postOrgReposHandler, hc, hs, hv] at hev
        rcases List.mem_cons.mp hev with h1 | h2
        · exact Or.inl h1
        · rcases List.mem_cons.mp h2 with h3 | h4
          · exact Or.inr (Or.inr ⟨circularStructureError, by rw [h3]⟩)
          · simp at h4
      | some b =>
        simp only [postOrgReposHandler, hc, hs, hv] at hev
        rcases List.mem_cons.mp hev with h1 | h2
        · exact Or.inl h1
        · rcases List.mem_cons.mp h2 with h3 | h4
          · exact Or.inr (Or.inl ⟨a, b, by rw [h3]⟩)
          · simp at h4
  | error e =>
    simp only [postOrgReposHandler, hc] at hev
    rcases List.mem_cons.mp hev with h1 | h2
    · exact Or.inl h1
    · rcases List.mem_cons.mp h2 with h3 | h4
      · exact Or.inr (Or.inr ⟨e, by rw [h3]⟩)
      · simp at h4

/-! ## Claim theorems -/

/-- Claim C1: for every request reaching the creation orchestrator, the
payload passed to the downstream `CreateRepository` operation equals the
header map merged with the body map (body keys override header keys), with
the keys `access_token` and `authorization` removed; in particular neither
of those keys ever appears in the forwarded payload, whichever side they
arrived on. -/
theorem c1_downstream_payload_is_sanitized_merge
    (headers body : Obj JsValue) (createRepository : Obj JsValue → Except JsError JsValue)
    (hh : objNodupKeys headers) (hb : objNodupKeys body) (k : String) :
    objGet (postOrgReposHandler headers body createRepository).downstreamPayload k =
      if k = "access_token" ∨ k = "authorization" then Option.none
      else
        match objGet body k with
        | Option.some v => Option.some v
        | Option.none => objGet headers k := by
  rw [handler_downstreamPayload]
  unfold sanitizedPayload headerSnapshot
  rw [objGet_objDelete, objGet_objDelete, objGet_objAssign body hb, objGet_objAssign headers hh]
  by_cases h1 : k = "authorization"
  · simp [h1]
  · by_cases h2 : k = "access_token"
    · simp [h1, h2]
    · have hor : ¬(k = "access_token" ∨ k = "authorization") := by
        intro hor
        rcases hor with h | h
        · exact h2 h
        · exact h1 h
      rw [if_neg h1, if_neg h2, if_neg hor]
      cases objGet body k <;> cases objGet headers k <;> simp [objGet]

/-- Witness for C1 at a concrete request: the `authorization` header and the
`access_token` body key, plus a key `x` present on both sides. -/
theorem c1_downstream_payload_is_sanitized_merge_witness :
    objGet (postOrgReposHandler
        [("authorization", JsValue.str "Bearer abc"), ("x", JsValue.str "fromHeader")]
        [("access_token", JsValue.str "tok"), ("x", JsValue.str "fromBody")]
        (fun _ => Except.ok (JsValue.str "created"))).downstreamPayload "x" =
      if ("x" : String) = "access_token" ∨ ("x" : String) = "authorization" then Option.none
      else
        match objGet [("access_token", JsValue.str "tok"), ("x", JsValue.str "fromBody")] "x" with
        | Option.some v => Option.some v
        | Option.none =>
          objGet [("authorization", JsValue.str "Bearer abc"), ("x", JsValue.str "fromHeader")] "x" :=
  c1_downstream_payload_is_sanitized_merge
    [("authorization", JsValue.str "Bearer abc"), ("x", JsValue.str "fromHeader")]
    [("access_token", JsValue.str "tok"), ("x", JsValue.str "fromBody")]
    (fun _ => Except.ok (JsValue.str "created")) (by decide) (by decide) "x"

/-- Counterexample to claim C2 as stated: when the inbound request carries
an `authorization` header, the `ApiRepoCreateRequest` attempt event is
emitted with the pre-merge header snapshot as its property map, so that
event does carry the `authorization` key. -/
theorem c2_counterexample_attempt_event_carries_authorization :
    ¬ (∀ ev ∈ (postOrgReposHandler [("authorization", JsValue.str "Bearer abc")] []
          (fun _ => Except.ok (JsValue.str "ok"))).events,
        objGet ev.properties "access_token" = Option.none
          ∧ objGet ev.properties "authorization" = Option.none) := by
  decide

/-- Claim C2, amended: the success and failure telemetry events
(`ApiRepoCreateRequestSuccess`, `ApiRepoCreateFailed`) never carry the
`access_token` or `authorization` key in their property maps; the attempt
event `ApiRepoCreateRequest`, however, is emitted with the pre-merge header
snapshot, before the two keys are deleted. -/
theorem c2_success_and_failure_events_sanitized
    (headers body : Obj JsValue) (f : Obj JsValue → Except JsError JsValue) :
    ∀ ev ∈ (postOrgReposHandler headers body f).events,
      ev.name ≠ "ApiRepoCreateRequest" →
        objGet ev.properties "access_token" = Option.none
          ∧ objGet ev.properties "authorization" = Option.none := by
  intro ev hev hname
  rcases handler_events_shape headers body f ev hev with h1 | ⟨a, b, h2⟩ | ⟨e, h3⟩
  · exact absurd (by rw [h1]) hname
  · rw [h2]
    constructor <;> simp [objGet]
  · rw [h3]
    rw [objGet_objSet, objGet_objSet, objGet_objSet, objGet_objSet]
    constructor
    · simp [objGet_sanitizedPayload_access_token]
    · simp [objGet_sanitizedPayload_authorization]

/-- Witness for the amended C2 at a concrete failing request: the
`ApiRepoCreateFailed` event emitted for it carries neither reserved key. -/
theorem c2_success_and_failure_events_sanitized_witness :
    objGet [("error", JsValue.str "boom"), ("encodedError", JsValue.str "\x7b\x7d")]
        "access_token" = Option.none
      ∧ objGet [("error", JsValue.str "boom"), ("encodedError", JsValue.str "\x7b\x7d")]
        "authorization" = Option.none :=
  c2_success_and_failure_events_sanitized
    [("access_token", JsValue.str "tok")] [] (fun _ => Except.error { message := "boom" })
    { name := "ApiRepoCreateFailed",
      properties := [("error", JsValue.str "boom"), ("encodedError", JsValue.str "\x7b\x7d")] }
    (by decide) (by decide)

/-- Claim C3 names the intended behavior: a telemetry serialization failure
must never prevent the 201 success response. The code calls
`JSON.stringify` inside the `try` block before `res.json`, so a downstream
result on which serialization throws is caught by the `catch` block: the
handler emits `ApiRepoCreateFailed` and forwards the `TypeError` to the
error middleware instead of sending the success response. -/
theorem c3_serialization_failure_blocks_success_response :
    (postOrgReposHandler [] [] (fun _ => Except.ok JsValue.circular)).outcome
        = Outcome.nextError circularStructureError
      ∧ (postOrgReposHandler [] [] (fun _ => Except.ok JsValue.circular)).outcome
        ≠ Outcome.jsonResponse 201 JsValue.circular
      ∧ (postOrgReposHandler [] [] (fun _ => Except.ok JsValue.circular)).events.map Event.name
        = ["ApiRepoCreateRequest", "ApiRepoCreateFailed"] := by
  refine ⟨rfl, by decide, rfl⟩

/-- Claim C4: when the downstream `CreateRepository` call fails, the
handler emits an `ApiRepoCreateFailed` event whose properties extend a
shallow copy of the sanitized payload with the error message under `error`
and the serialized error under `encodedError` (the payload object passed
downstream is left equal to the sanitized payload), and then forwards the
very same error to the error middleware. -/
theorem c4_failure_telemetry_and_error_propagation
    (headers body : Obj JsValue) (f : Obj JsValue → Except JsError JsValue) (e : JsError)
    (hf : f (sanitizedPayload headers body) = Except.error e) :
    postOrgReposHandler headers body f =
      { downstreamPayload := sanitizedPayload headers body,
        events := [{ name := "ApiRepoCreateRequest", properties := headerSnapshot headers },
          { name := "ApiRepoCreateFailed",
            properties :=
              objSet (objSet (sanitizedPayload headers body) "error" (JsValue.str e.message))
                "encodedError" (JsValue.str (stringifyError e)) }],
        outcome := Outcome.nextError e } := by
  simp [postOrgReposHandler, hf]

/-- Witness for C4 at a concrete request whose downstream call rejects with
the error message `boom`. -/
theorem c4_failure_telemetry_and_error_propagation_witness :
    postOrgReposHandler [("host", JsValue.str "h")] []
        (fun _ => Except.error { message := "boom" }) =
      { downstreamPayload := sanitizedPayload [("host", JsValue.str "h")] [],
        events :=
          [{ name := "ApiRepoCreateRequest",
             properties := headerSnapshot [("host", JsValue.str "h")] },
           { name := "ApiRepoCreateFailed",
             properties :=
               objSet (objSet (sanitizedPayload [("host", JsValue.str "h")] []) "error"
                   (JsValue.str (JsError.message { message := "boom" })))
                 "encodedError" (JsValue.str (stringifyError { message := "boom" })) }],
        outcome := Outcome.nextError { message := "boom" } } :=
  c4_failure_telemetry_and_error_propagation [("host", JsValue.str "h")] []
    (fun _ => Except.error { message := "boom" }) { message := "boom" } rfl

/-- When the query parameter supplies a nonempty value, the gatekeeper
applies the version checks to it, whatever the header holds. -/
theorem versionGatekeeper_query (path v : String) (h : Option String)
    (hp : isClientRoute path = false) (hv : v ≠ "") :
    versionGatekeeper path (Option.some v) h = versionCheckValue v := by
  unfold versionGatekeeper versionCheckValue jsOrString jsTruthyStr
  simp [hp, hv]

/-- When the query parameter is absent or empty, the gatekeeper falls back
to the header value. -/
theorem versionGatekeeper_headerFallback (path w : String) (q : Option String)
    (hp : isClientRoute path = false) (hq : q = Option.none ∨ q = Option.some "")
    (hw : w ≠ "") :
    versionGatekeeper path q (Option.some w) = versionCheckValue w := by
  rcases hq with rfl | rfl <;>
    · unfold versionGatekeeper versionCheckValue jsOrString jsTruthyStr
      simp [hp, hw]

/-- When neither the query parameter nor the header supplies a nonempty
value, the gatekeeper fails with the missing-version error. -/
theorem versionGatekeeper_missing (path : String) (q h : Option String)
    (hp : isClientRoute path = false)
    (hq : q = Option.none ∨ q = Option.some "")
    (hh : h = Option.none ∨ h = Option.some "") :
    versionGatekeeper path q h = VersionOutcome.versionError missingVersionMessage 422 := by
  rcases hq with rfl | rfl <;> rcases hh with rfl | rfl <;>
    simp [versionGatekeeper, jsOrString, jsTruthyStr, hp]

/-- Claim C5: on a non-client path the API version is taken from the
`api-version` query parameter, falling back to the `api-version` header;
the query value wins whenever it supplies a (nonempty) value, and when
neither side supplies a value the request fails with 422 and the
missing-version error, never reaching the stage that attaches the version
(`versioned`) and passes to the rest of the pipeline. -/
theorem c5_version_selection_and_missing (path : String) (hp : isClientRoute path = false) :
    (∀ (v : String) (h h' : Option String), v ≠ "" →
      versionGatekeeper path (Option.some v) h = versionGatekeeper path (Option.some v) h') ∧
    (∀ (v : String) (h : Option String), v ≠ "" →
      versionGatekeeper path (Option.some v) h = versionCheckValue v) ∧
    (∀ (q : Option String) (w : String),
      (q = Option.none ∨ q = Option.some "") → w ≠ "" →
      versionGatekeeper path q (Option.some w) = versionCheckValue w) ∧
    (∀ (q h : Option String),
      (q = Option.none ∨ q = Option.some "") → (h = Option.none ∨ h = Option.some "") →
      versionGatekeeper path q h = VersionOutcome.versionError missingVersionMessage 422 ∧
      ∀ v : String, versionGatekeeper path q h ≠ VersionOutcome.versioned v) := by
  refine ⟨?_, ?_, ?_, ?_⟩
  · intro v h h' hv
    rw [versionGatekeeper_query path v h hp hv, versionGatekeeper_query path v h' hp hv]
  · intro v h hv
    exact versionGatekeeper_query path v h hp hv
  · intro q w hq hw
    exact versionGatekeeper_headerFallback path w q hp hq hw
  · intro q h hq hh
    refine ⟨versionGatekeeper_missing path q h hp hq hh, ?_⟩
    intro v hcontra
    rw [versionGatekeeper_missing path q h hp hq hh] at hcontra
    exact VersionOutcome.noConfusion hcontra

/-- Witness for C5 at concrete requests: a nonempty query value beats a
header, an empty query falls back to the header, and two empty sources
yield the 422 missing-version error. -/
theorem c5_version_selection_and_missing_witness :
    versionGatekeeper "/acme/repos" (Option.some "2019-10-01") (Option.some "bogus")
        = versionCheckValue "2019-10-01"
      ∧ versionGatekeeper "/acme/repos" (Option.some "") (Option.some "2017-09-01")
        = versionCheckValue "2017-09-01"
      ∧ versionGatekeeper "/acme/repos" (Option.some "") Option.none
        = VersionOutcome.versionError missingVersionMessage 422 :=
  ⟨(c5_version_selection_and_missing "/acme/repos" (by decide)).2.1 "2019-10-01"
      (Option.some "bogus") (by decide),
   (c5_version_selection_and_missing "/acme/repos" (by decide)).2.2.1 (Option.some "")
      "2017-09-01" (Or.inr rfl) (by decide),
   ((c5_version_selection_and_missing "/acme/repos" (by decide)).2.2.2 (Option.some "")
      Option.none (Or.inr rfl) (Or.inl rfl)).1⟩

/-- Claim C6: on a non-client path, supplying the retired sentinel version
`2016-09-22_Preview` in any letter case yields a 422 whose message names
the current recommended version, the first entry of the allow-list,
`2019-10-01`. -/
theorem c6_retired_version (path : String) (q h : Option String) (v : String)
    (hp : isClientRoute path = false)
    (hv : jsOrString q h = Option.some v)
    (hcase : jsToLowerCase v = jsToLowerCase "2016-09-22_Preview") :
    versionGatekeeper path q h = VersionOutcome.versionError retiredVersionMessage 422
      ∧ retiredVersionMessage
        = "This endpoint no longer supports the original preview version. Please update your client to use a newer version such as "
          ++ hardcodedApiVersions.headD ""
      ∧ hardcodedApiVersions.headD "" = "2019-10-01" := by
  refine ⟨?_, rfl, rfl⟩
  have hne : ¬(v = "") := by
    intro h0
    rw [h0] at hcase
    exact absurd hcase (by decide)
  unfold versionGatekeeper
  rw [hv]
  simp [hp, hne, hcase]

/-- Witness for C6: the sentinel supplied upper-cased through the header,
with no query value. -/
theorem c6_retired_version_witness :
    versionGatekeeper "/acme/repos" Option.none (Option.some "2016-09-22_PREVIEW")
        = VersionOutcome.versionError retiredVersionMessage 422
      ∧ retiredVersionMessage
        = "This endpoint no longer supports the original preview version. Please update your client to use a newer version such as "
          ++ hardcodedApiVersions.headD ""
      ∧ hardcodedApiVersions.headD "" = "2019-10-01" :=
  c6_retired_version "/acme/repos" Option.none (Option.some "2016-09-22_PREVIEW")
    "2016-09-22_PREVIEW" (by decide) rfl (by decide)

/-- Claim C7: the organization-resolution middleware applies its checks in
a fixed order: a token with no organization-scope configuration fails with
412 whatever the requested organization and directory; a token whose
grants include neither the requested name nor the wildcard-all marker
fails with 401 whatever the directory; a throwing directory lookup fails
with 400 wrapping the thrown error; otherwise the resolved organization
handle is attached for downstream use. -/
theorem c7_org_resolution_check_order :
    (∀ (orgName : String) (getOrganization : String → Except JsError String),
      orgResolutionMiddleware { organizationScopes := Option.none } orgName getOrganization
        = OrgResolveOutcome.jsonErr misconfiguredKeyMessage 412) ∧
    (∀ (scopes : List String) (orgName : String)
        (getOrganization : String → Except JsError String),
      (scopes.contains orgName || scopes.contains "*") = false →
      orgResolutionMiddleware { organizationScopes := Option.some scopes } orgName getOrganization
        = OrgResolveOutcome.jsonErr notAuthorizedMessage 401) ∧
    (∀ (scopes : List String) (orgName : String)
        (getOrganization : String → Except JsError String) (ex : JsError),
      (scopes.contains orgName || scopes.contains "*") = true →
      getOrganization orgName = Except.error ex →
      orgResolutionMiddleware { organizationScopes := Option.some scopes } orgName getOrganization
        = OrgResolveOutcome.wrappedErr ex 400) ∧
    (∀ (scopes : List String) (orgName : String)
        (getOrganization : String → Except JsError String) (organization : String),
      (scopes.contains orgName || scopes.contains "*") = true →
      getOrganization orgName = Except.ok organization →
      orgResolutionMiddleware { organizationScopes := Option.some scopes } orgName getOrganization
        = OrgResolveOutcome.ok organization) := by
  refine ⟨fun orgName lookup => rfl, ?_, ?_, ?_⟩
  · intro scopes orgName lookup hscope
    have h : ApiKeyToken.hasOrganizationScope
        { organizationScopes := Option.some scopes } orgName = false := hscope
    unfold orgResolutionMiddleware
    rw [h]
    rfl
  · intro scopes orgName lookup ex hscope hlookup
    have h : ApiKeyToken.hasOrganizationScope
        { organizationScopes := Option.some scopes } orgName = true := hscope
    unfold orgResolutionMiddleware
    rw [h]
    rw [show lookup orgName = Except.error ex from hlookup]
    rfl
  · intro scopes orgName lookup organization hscope hlookup
    have h : ApiKeyToken.hasOrganizationScope
        { organizationScopes := Option.some scopes } orgName = true := hscope
    unfold orgResolutionMiddleware
    rw [h]
    rw [show lookup orgName = Except.ok organization from hlookup]
    rfl

/-- Witness for C7, one concrete request per branch: no scope
configuration, a foreign grant list, a wildcard grant with a throwing
lookup, and a direct grant with a successful lookup. -/
theorem c7_org_resolution_check_order_witness :
    orgResolutionMiddleware { organizationScopes := Option.none } "acme"
        (fun n => Except.ok n) = OrgResolveOutcome.jsonErr misconfiguredKeyMessage 412
      ∧ orgResolutionMiddleware { organizationScopes := Option.some ["contoso"] } "acme"
        (fun n => Except.ok n) = OrgResolveOutcome.jsonErr notAuthorizedMessage 401
      ∧ orgResolutionMiddleware { organizationScopes := Option.some ["*"] } "acme"
        (fun _ => Except.error { message := "unknown organization" })
        = OrgResolveOutcome.wrappedErr { message := "unknown organization" } 400
      ∧ orgResolutionMiddleware { organizationScopes := Option.some ["acme"] } "acme"
        (fun n => Except.ok n) = OrgResolveOutcome.ok "acme" :=
  ⟨c7_org_resolution_check_order.1 "acme" (fun n => Except.ok n),
   c7_org_resolution_check_order.2.1 ["contoso"] "acme" (fun n => Except.ok n) (by decide),
   c7_org_resolution_check_order.2.2.1 ["*"] "acme"
     (fun _ => Except.error { message := "unknown organization" })
     { message := "unknown organization" } (by decide) rfl,
   c7_org_resolution_check_order.2.2.2 ["acme"] "acme" (fun n => Except.ok n) "acme"
     (by decide) rfl⟩

/-- Claim C8: the administrative permission gate allows a request exactly
when `isPortalAdministrator()` resolves to the boolean `true`; every other
settled state of the promise, a `false` resolution or a rejection for any
reason, is denied with the same single fixed message, so callers cannot
tell the two apart. -/
theorem c8_admin_gate_allow_iff_true (check : PromiseOutcome) :
    (requirePortalAdministrationPermission check = RouteDecision.allowed
      ↔ check = PromiseOutcome.resolved (JsVal.vBool true)) ∧
    (requirePortalAdministrationPermission check ≠ RouteDecision.allowed →
      requirePortalAdministrationPermission check = RouteDecision.denied denyRouteMessage) := by
  constructor
  · constructor
    · intro hall
      cases check with
      | resolved v =>
        by_cases hv : v = JsVal.vBool true
        · rw [hv]
        · simp [requirePortalAdministrationPermission, hv] at hall
      | rejected e => simp [requirePortalAdministrationPermission] at hall
    · intro hc
      rw [hc]
      rfl
  · intro hnot
    cases check with
    | resolved v =>
      by_cases hv : v = JsVal.vBool true
      · exact absurd (by rw [hv]; rfl) hnot
      · simp [requirePortalAdministrationPermission, hv]
    | rejected e => rfl

/-- Witness for C8 at a concrete rejected check: a failure of the check
itself is denied with the fixed message. -/
theorem c8_admin_gate_allow_iff_true_witness :
    requirePortalAdministrationPermission
        (PromiseOutcome.rejected { message := "network timeout" })
      = RouteDecision.denied denyRouteMessage :=
  (c8_admin_gate_allow_iff_true
    (PromiseOutcome.rejected { message := "network timeout" })).2 (by decide)

/-- Claim C10: the gate compares the resolved value against `true` with
strict equality; every resolved value other than the boolean `true`,
including truthy values such as a nonempty string or the number 1, is
denied exactly as a resolved `false` is. -/
theorem c10_gate_strict_equality (v : JsVal) (hv : v ≠ JsVal.vBool true) :
    requirePortalAdministrationPermission (PromiseOutcome.resolved v)
        = RouteDecision.denied denyRouteMessage
      ∧ requirePortalAdministrationPermission (PromiseOutcome.resolved v)
        = requirePortalAdministrationPermission
            (PromiseOutcome.resolved (JsVal.vBool false)) := by
  constructor <;> simp [requirePortalAdministrationPermission, hv]

/-- Witness for C10 at the truthy non-boolean value 1. -/
theorem c10_gate_strict_equality_witness :
    requirePortalAdministrationPermission (PromiseOutcome.resolved (JsVal.vNum 1))
        = RouteDecision.denied denyRouteMessage
      ∧ requirePortalAdministrationPermission (PromiseOutcome.resolved (JsVal.vNum 1))
        = requirePortalAdministrationPermission
            (PromiseOutcome.resolved (JsVal.vBool false)) :=
  c10_gate_strict_equality (JsVal.vNum 1) (by decide)

/-- Claim C9: `Collaborator.getHighestPermission` returns the `none`
permission whenever the collaborator has no permissions object, including
one constructed from a null or undefined entity, and otherwise returns the
fixed projection of the permissions object to the single highest
permission. -/
theorem c9_highest_permission :
    (∀ entity : Option CollaboratorEntity,
      (Collaborator.make entity)._permissions = Option.none →
      (Collaborator.make entity).getHighestPermission = GitHubRepositoryPermission.none) ∧
    (Collaborator.make Option.none).getHighestPermission = GitHubRepositoryPermission.none ∧
    (∀ (c : Collaborator) (p : IGitHubCollaboratorPermissions),
      c._permissions = Option.some p →
      c.getHighestPermission
        = projectCollaboratorPermissionsObjectToGitHubRepositoryPermission p) := by
  refine ⟨?_, rfl, ?_⟩
  · intro entity he
    unfold Collaborator.getHighestPermission
    rw [he]
  · intro c p hp
    unfold Collaborator.getHighestPermission
    rw [hp]

/-- Witness for C9: an entity with no permissions object maps to the `none`
permission, and a collaborator holding an admin permissions object maps to
its projection. -/
theorem c9_highest_permission_witness :
    (Collaborator.make (Option.some
        { id := Option.some 5, login := Option.some "octocat",
          permissions := Option.none, avatar_url := Option.none })).getHighestPermission
      = GitHubRepositoryPermission.none
    ∧ (Collaborator.make (Option.some
        { id := Option.some 7, login := Option.some "hubber",
          permissions := Option.some
            { admin := true, maintain := false, push := true, triage := false, pull := true },
          avatar_url := Option.none })).getHighestPermission
      = projectCollaboratorPermissionsObjectToGitHubRepositoryPermission
          { admin := true, maintain := false, push := true, triage := false, pull := true } :=
  ⟨c9_highest_permission.1 (Option.some
      { id := Option.some 5, login := Option.some "octocat",
        permissions := Option.none, avatar_url := Option.none }) rfl,
   c9_highest_permission.2.2 (Collaborator.make (Option.some
      { id := Option.some 7, login := Option.some "hubber",
        permissions := Option.some
          { admin := true, maintain := false, push := true, triage := false, pull := true },
        avatar_url := Option.none }))
      { admin := true, maintain := false, push := true, triage := false, pull := true } rfl⟩
